import Mathlib

/-!
Shallow embedding of the batched completion request orchestrator of
`src/rust/src/utils.rs` (crate `kakashi`): the data model
(`OpenAIDecodingArguments`, JSON-like values), the batcher
(`prepare_prompt_batches`), the request transport (`send_request`), the
per-batch retry loop and the result reshaping of `openai_completion`.

Modelling conventions:
* JSON values (`serde_json::Value`) are the inductive `Value`; numbers are
  restricted to integers, which is enough for every claim considered.
* Rust panics (slice out of range, `Option::unwrap` on `None`, index out of
  bounds) are modelled explicitly by `PanicOr.panic` / `ReqResult.panic` /
  `ExecOutcome.panic` carrying an informal message; the exact panic message
  text is not significant, only that the code panics.
* `usize` is 64 bits (the crate's supported targets); float-to-int `as usize`
  casts saturate, and `NaN as usize = 0`, as in Rust.
* The network is abstracted by an oracle giving, per batch, the list of
  outcomes of the successive round trips attempted for that batch.
-/

/-- JSON-like value mirroring `serde_json::Value` as used by the crate.
Numbers are modelled as integers (the claims never need fractional numbers). -/
inductive Value : Type where
  | null : Value
  | bool (b : Bool) : Value
  | num (i : Int) : Value
  | str (s : String) : Value
  | arr (xs : List Value) : Value
  | obj (fields : List (String × Value)) : Value

/-- Mirrors `serde_json::Value::is_string`. -/
def Value.isString : Value → Bool
  | .str _ => true
  | _ => false

/-- Mirrors `serde_json::Value::is_object`. -/
def Value.isObject : Value → Bool
  | .obj _ => true
  | _ => false

/-- Mirrors `serde_json::Value::as_array`: `Some` of the element list on an
array, `None` otherwise. -/
def Value.as_array : Value → Option (List Value)
  | .arr xs => some xs
  | _ => none

/-- First-match key lookup in an object's field list (serde maps hold each key
at most once, so first-match is exact). -/
def lookupField : List (String × Value) → String → Value
  | [], _ => .null
  | (k, v) :: rest, key => if k = key then v else lookupField rest key

/-- Mirrors `serde_json::Value`'s `Index<&str>` (`value["key"]`): field lookup
on objects, `Null` on a missing key or a non-object. -/
def Value.index : Value → String → Value
  | .obj fields, key => lookupField fields key
  | _, _ => .null

/-- Mirrors `is_single_prompt` (utils.rs line 60): a prompt is single when it
is a bare string or an object. -/
def is_single_prompt (prompt : Value) : Bool :=
  prompt.isString || prompt.isObject

/-- Result of a Rust computation that can panic. -/
inductive PanicOr (α : Type) : Type where
  | ok (a : α) : PanicOr α
  | panic (msg : String) : PanicOr α

/-- Value of `usize::MAX` on the 64-bit targets the crate builds for. -/
def usizeMax : Nat := 2 ^ 64 - 1

/-- Mirrors `(num_prompts as f64 / batch_size as f64).ceil() as usize`
(utils.rs line 83) including the degenerate float semantics:
* `batch_size = 0`, `num_prompts = 0`: `0.0 / 0.0 = NaN`, and `NaN as usize`
  is `0` in Rust;
* `batch_size = 0`, `num_prompts > 0`: the quotient is `+inf`, whose cast
  saturates to `usize::MAX`;
* `batch_size > 0`: the f64 quotient and ceiling are exact for all list
  lengths below `2^53`, far above any representable in-memory vector of
  prompts, so the cast equals the exact natural ceiling
  `(num_prompts + batch_size - 1) / batch_size`. -/
def num_prompt_batches (num_prompts batch_size : Nat) : Nat :=
  if batch_size = 0 then
    if num_prompts = 0 then 0 else usizeMax
  else
    (num_prompts + batch_size - 1) / batch_size

/-- Mirrors `prompts[start..end].to_vec()` on a `Vec` (utils.rs line 89): the
slice panics unless `start ≤ end ≤ len`. -/
def sliceToVec (xs : List Value) (start stop : Nat) : PanicOr (List Value) :=
  if start ≤ stop ∧ stop ≤ xs.length then
    .ok ((xs.drop start).take (stop - start))
  else
    .panic ("slice index out of range")

/-- Sequences a panicking computation over a list, stopping at the first
panic (mirrors how the batch-building iterator of utils.rs lines 85-91 would
unwind at the first panicking slice). -/
def collectPanic {α β : Type} (f : α → PanicOr β) : List α → PanicOr (List β)
  | [] => .ok []
  | i :: is =>
    match f i with
    | .panic m => .panic m
    | .ok b =>
      match collectPanic f is with
      | .panic m => .panic m
      | .ok bs => .ok (b :: bs)

/-- Mirrors `prepare_prompt_batches` (utils.rs lines 76-92): truncate the
prompts to `max_instances`, compute the float-ceiling batch count, then take
the slice `[batch_id*batch_size .. (batch_id+1)*batch_size]` for every batch
id — including the out-of-range end index of the last slice when
`batch_size` does not divide the truncated count, which panics. -/
def prepare_prompt_batches (prompts0 : List Value) (batch_size max_instances : Nat) :
    PanicOr (List (List Value)) :=
  let prompts := prompts0.take max_instances
  let nb := num_prompt_batches prompts.length batch_size
  collectPanic
    (fun batch_id => sliceToVec prompts (batch_id * batch_size) ((batch_id + 1) * batch_size))
    (List.range nb)

/-- Mirrors `OpenAIDecodingArguments` (utils.rs lines 16-28). The two `f32`
fields that the orchestrator never computes with are modelled as rationals. -/
structure OpenAIDecodingArguments : Type where
  max_tokens : Nat
  temperature : ℚ
  top_p : ℚ
  n : Nat
  stream : Bool
  stop : Option (List String)
  presence_penalty : ℚ
  frequency_penalty : ℚ
  suffix : Option String
  logprobs : Option Nat
  echo : Bool

/-- Mirrors the `Default` impl (utils.rs lines 31-48). -/
def OpenAIDecodingArguments.default : OpenAIDecodingArguments :=
  { max_tokens := 1800
    temperature := (2 : ℚ) / 10
    top_p := 1
    n := 1
    stream := false
    stop := none
    presence_penalty := 0
    frequency_penalty := 0
    suffix := none
    logprobs := none
    echo := false }

/-- Mirrors `(max_tokens as f64 * 0.8) as u32` (utils.rs line 230). For every
`u32` input `t` the f64 product `t * 0.8` rounds to a value whose truncation
equals the exact `⌊0.8 t⌋ = 4 t / 5`: the rounding error of the f64 constant
`0.8` contributes exactly `t·2⁻⁵⁴`, strictly below half an ulp of `0.8 t`,
so no integer boundary is crossed. -/
def shrinkMaxTokens (t : Nat) : Nat := 4 * t / 5

/-- Character-list test that `pat` occurs as a prefix of `s` (helper for the
substring test below). -/
def strStartsWith : List Char → List Char → Bool
  | [], _ => true
  | _ :: _, [] => false
  | c :: cs, d :: ds => (c = d) && strStartsWith cs ds

/-- Character-list test that `pat` occurs contiguously somewhere in `s`. -/
def subSearch (pat : List Char) : List Char → Bool
  | [] => strStartsWith pat []
  | d :: ds => strStartsWith pat (d :: ds) || subSearch pat ds

/-- Mirrors Rust's `str::contains` with a string pattern: `pat` occurs as a
contiguous substring of `s`. -/
def strContainsSub (s pat : String) : Bool :=
  subSearch pat.data s.data

/-- Parsed state of one completed HTTP exchange: the status code and the
result of parsing the response body as JSON. -/
structure HttpResponse : Type where
  status : Nat
  body : Except String Value

/-- Outcome of one network round trip: a transport-level failure (the `?` on
`send()`), or a completed exchange carrying status and body. -/
inductive NetResult : Type where
  | failed (e : String) : NetResult
  | completed (resp : HttpResponse) : NetResult

/-- Result of one `send_request` call as observed by the retry loop: the
extracted choices, an error (`Box<dyn Error>` rendered as its display
string), or a panic. -/
inductive ReqResult : Type where
  | ok (choices : List Value) : ReqResult
  | err (msg : String) : ReqResult
  | panic (msg : String) : ReqResult

/-- One `send_request` run together with its resource usage: how many network
round trips it performed and how many sleeps it executed. -/
structure TransportRun : Type where
  result : ReqResult
  roundTrips : Nat
  sleeps : Nat

/-- Canonical reason phrases of the HTTP status codes exercised in this
development (the `http` crate carries the full RFC table; only these codes
appear in the theorems below). -/
def statusCanonicalReason (c : Nat) : Option String :=
  if c = 200 then some ("OK")
  else if c = 400 then some ("Bad Request")
  else if c = 429 then some ("Too Many Requests")
  else if c = 500 then some ("Internal Server Error")
  else none

/-- Mirrors `Display` for `reqwest::StatusCode`: the numeric code followed by
its canonical reason. -/
def statusDisplay (c : Nat) : String :=
  toString c ++ " " ++ (statusCanonicalReason c).getD ("<unknown status code>")

/-- Mirrors `send_request` (utils.rs lines 111-161). The request payload
construction (lines 119-146) has no observable effect on the modelled
behaviour and is elided. The function performs exactly one round trip and
never sleeps; on a non-OK status it returns `Err(format!("OpenAIError: {}",
response.status()))` — note the response body is never read on that path —
and on an OK status it parses the body and unwraps `body["choices"]` as an
array, panicking when it is absent or not an array. -/
def send_request (net : NetResult) : TransportRun :=
  { roundTrips := 1
    sleeps := 0
    result :=
      match net with
      | .failed e => .err e
      | .completed resp =>
        if resp.status ≠ 200 then
          .err ("OpenAIError: " ++ statusDisplay resp.status)
        else
          match resp.body with
          | .error e => .err e
          | .ok v =>
            match (v.index ("choices")).as_array with
            | some cs => .ok cs
            | none => .panic ("called Option::unwrap on a None value") }

/-- Observable outcome of one batch's retry loop: the choices it returned,
the duration of every sleep it executed (in order), the decoding-argument
value used at each successive attempt, and the final working copy. -/
structure BatchRunResult : Type where
  choices : List Value
  sleepDurations : List Nat
  attemptArgs : List OpenAIDecodingArguments
  finalArgs : OpenAIDecodingArguments

/-- Result of running one batch's retry loop against a finite list of
transport outcomes: success, a propagated panic, or exhaustion of the
supplied outcomes (the real loop would keep retrying forever). -/
inductive BatchOutcome : Type where
  | succeeded (r : BatchRunResult) : BatchOutcome
  | panicked (msg : String) : BatchOutcome
  | outOfAttempts : BatchOutcome

/-- Mirrors the `while !success` retry loop of `openai_completion`
(utils.rs lines 210-241), driven by the list of successive transport
outcomes for this batch. On an error whose display string contains
"Please reduce your prompt" it shrinks `max_tokens` by the 0.8 factor and
retries immediately; on any other error it sleeps for `sleep_time` seconds
and retries with the arguments unchanged. -/
def runBatch (args : OpenAIDecodingArguments) (sleep_time : Nat) :
    List ReqResult → BatchOutcome
  | [] => .outOfAttempts
  | .ok choices :: _ =>
    .succeeded
      { choices := choices
        sleepDurations := []
        attemptArgs := [args]
        finalArgs := args }
  | .panic m :: _ => .panicked m
  | .err m :: rest =>
    if strContainsSub m ("Please reduce your prompt") then
      match runBatch { args with max_tokens := shrinkMaxTokens args.max_tokens } sleep_time rest with
      | .succeeded r => .succeeded { r with attemptArgs := args :: r.attemptArgs }
      | o => o
    else
      match runBatch args sleep_time rest with
      | .succeeded r =>
        .succeeded
          { r with
            sleepDurations := sleep_time :: r.sleepDurations
            attemptArgs := args :: r.attemptArgs }
      | o => o

/-- Observable outcome of the whole orchestration. -/
inductive ExecOutcome (α : Type) : Type where
  | ok (a : α) : ExecOutcome α
  | panic (msg : String) : ExecOutcome α
  | diverges : ExecOutcome α

/-- Mirrors the batch loop of `openai_completion` (utils.rs lines 206-242):
batches are processed strictly in order, each with a fresh clone of the
caller's decoding arguments; the choices of all batches are concatenated in
order, and the per-batch run records are collected for inspection. -/
def runBatches (oracle : Nat → List NetResult) (args : OpenAIDecodingArguments)
    (sleep_time : Nat) : Nat → List (List Value) →
    ExecOutcome (List Value × List BatchRunResult)
  | _, [] => .ok ([], [])
  | i, _batch :: rest =>
    match runBatch args sleep_time ((oracle i).map (fun nr => (send_request nr).result)) with
    | .succeeded r =>
      match runBatches oracle args sleep_time (i + 1) rest with
      | .ok (cs, rs) => .ok (r.choices ++ cs, r :: rs)
      | o => o
    | .panicked m => .panic m
    | .outOfAttempts => .diverges

/-- Mirrors `Vec::chunks(n)` followed by collecting each chunk (utils.rs
lines 253-256) for `n ≥ 1`: `⌈len/n⌉` consecutive chunks of size `n`, the
last possibly shorter. (`chunks(0)` would panic in Rust; the call site is
guarded by `n > 1`.) -/
def chunkList (n : Nat) (xs : List Value) : List (List Value) :=
  (List.range ((xs.length + n - 1) / n)).map (fun i => (xs.drop (i * n)).take n)

/-- Mirrors `openai_completion` (utils.rs lines 180-265). The `model_name`
and `decoding_kwargs` parameters only affect the request URL and payload,
which the abstracted network oracle subsumes; they are kept for signature
fidelity. Steps: classify the prompt (`as_array().unwrap()` panics on a
non-single, non-array prompt), build the batches, run each batch's retry
loop in order, then reshape: optionally keep only each choice's `"text"`
field, regroup into chunks of `n` when `n > 1`, and collapse to the first
element (`completions[0]`, which panics on an empty vector) when the input
was a single prompt. -/
def openai_completion (prompt : Value) (decoding_args : OpenAIDecodingArguments)
    (_model_name : String) (sleep_time batch_size max_instances : Nat)
    (return_text : Bool) (_decoding_kwargs : List (String × Value))
    (oracle : Nat → List NetResult) : ExecOutcome (List Value) :=
  let single_prompt := is_single_prompt prompt
  match (if single_prompt then some [prompt] else prompt.as_array) with
  | none => .panic ("called Option::unwrap on a None value")
  | some prompts =>
    match prepare_prompt_batches prompts batch_size max_instances with
    | .panic m => .panic m
    | .ok prompt_batches =>
      match runBatches oracle decoding_args sleep_time 0 prompt_batches with
      | .panic m => .panic m
      | .diverges => .diverges
      | .ok (completions0, _runs) =>
        let completions1 :=
          if return_text then completions0.map (fun c => c.index ("text")) else completions0
        let completions2 :=
          if decoding_args.n > 1 then (chunkList decoding_args.n completions1).map Value.arr
          else completions1
        if single_prompt then
          match completions2 with
          | [] => .panic ("index out of bounds")
          | c :: _ => .ok [c]
        else
          .ok completions2

/-! Theorems settling the claims. -/

/-- Theorem C1: the claim states that for every batch size `b ≥ 1` the
Batcher returns `⌈min(k,m)/b⌉` batches, the last holding the remainder, and
in particular returns normally even when `b` does not divide the truncated
count. The code instead slices `prompts[batch_id*b .. (batch_id+1)*b]`
whose end index exceeds the vector length at the last batch whenever `b`
does not divide the count, which panics. Evaluated at the failing input of
3 prompts, batch size 2, max instances 100: the spec/claim demands the two
batches `[[a, b], [c]]`, but the code panics on the slice `[2..4]` of a
3-element vector. -/
theorem c1_batcher_slice_out_of_range :
    prepare_prompt_batches [.str ("a"), .str ("b"), .str ("c")] 2 100
      = .panic ("slice index out of range") := rfl

/-- Theorem C2: the claim states that a prompt that is neither a string nor
an object nor an array is rejected with the error `InvalidPromptShape`
without panicking. The code classifies such a prompt as non-single and then
runs `prompt.as_array().unwrap()` (utils.rs line 194), which panics — no
`InvalidPromptShape` error exists anywhere in the crate. Evaluated at the
failing input `prompt = 5` (a JSON number): the call panics before any
batch is formed or any network attempt is made. -/
theorem c2_nonshape_prompt_crash :
    openai_completion (.num 5) OpenAIDecodingArguments.default ("text-davinci-003") 1 1 1 true []
        (fun _ => [])
      = .panic ("called Option::unwrap on a None value") := rfl

/-- Theorem C3 counterexample: the claim asserts the token-shrinking
adaptation fires for every failure message containing "reduce your prompt",
including messages without any longer surrounding phrase. The code tests
`err.to_string().contains("Please reduce your prompt")` (utils.rs line 228),
so the bare message "reduce your prompt" does not match: at that concrete
input the controller takes the rate-limit branch — it sleeps once (for the
configured 5 seconds) and leaves `max_tokens` at 1800 — whereas the claim
demands no sleep and `max_tokens = ⌊0.8 · 1800⌋ = 1440`. -/
theorem c3_cex_bare_reduce_message_sleeps :
    runBatch OpenAIDecodingArguments.default 5 [.err ("reduce your prompt"), .ok [.str ("c")]]
      = .succeeded
        { choices := [.str ("c")]
          sleepDurations := [5]
          attemptArgs := [OpenAIDecodingArguments.default, OpenAIDecodingArguments.default]
          finalArgs := OpenAIDecodingArguments.default }
    ∧ ¬ ∃ r : BatchRunResult,
        runBatch OpenAIDecodingArguments.default 5 [.err ("reduce your prompt"), .ok [.str ("c")]]
            = .succeeded r
          ∧ r.sleepDurations = [] ∧ r.finalArgs.max_tokens = 1440 := by
  refine ⟨rfl, ?_⟩
  rintro ⟨r, hr, hs, hm⟩
  have h0 : runBatch OpenAIDecodingArguments.default 5
      [.err ("reduce your prompt"), .ok [.str ("c")]]
      = .succeeded
        { choices := [.str ("c")]
          sleepDurations := [5]
          attemptArgs := [OpenAIDecodingArguments.default, OpenAIDecodingArguments.default]
          finalArgs := OpenAIDecodingArguments.default } := rfl
  rw [h0] at hr
  injection hr with hr'
  rw [← hr'] at hs
  simp at hs

/-- Theorem C3 (amended): for every batch attempt failing with an error
whose display string contains the substring "Please reduce your prompt",
the Retry Controller does not sleep, sets the working copy's `max_tokens`
to `⌊0.8 · previous⌋` and immediately retries the same batch with the
shrunk arguments; a failing message that does not contain that full
substring (for example the bare "reduce your prompt") instead takes the
sleep-and-retry branch with the arguments unchanged. -/
theorem c3_context_length_adaptation :
    (∀ (args : OpenAIDecodingArguments) (st : Nat) (m : String) (cs : List Value),
        strContainsSub m ("Please reduce your prompt") = true →
        runBatch args st [.err m, .ok cs]
          = .succeeded
            { choices := cs
              sleepDurations := []
              attemptArgs := [args, { args with max_tokens := shrinkMaxTokens args.max_tokens }]
              finalArgs := { args with max_tokens := shrinkMaxTokens args.max_tokens } })
    ∧ (∀ (args : OpenAIDecodingArguments) (st : Nat) (m : String) (cs : List Value),
        strContainsSub m ("Please reduce your prompt") = false →
        runBatch args st [.err m, .ok cs]
          = .succeeded
            { choices := cs
              sleepDurations := [st]
              attemptArgs := [args, args]
              finalArgs := args }) := by
  constructor
  · intro args st m cs h
    simp [runBatch, h]
  · intro args st m cs h
    simp [runBatch, h]

/-- Witness for the amended C3 theorem, at the concrete messages
"Please reduce your prompt" (adaptation branch: no sleep, 1800 shrinks to
1440) and "rate limited" (sleep branch: one 7-second sleep, arguments
unchanged). -/
theorem c3_witness :
    runBatch OpenAIDecodingArguments.default 7
        [.err ("Please reduce your prompt"), .ok [.str ("y")]]
      = .succeeded
        { choices := [.str ("y")]
          sleepDurations := []
          attemptArgs := [OpenAIDecodingArguments.default,
            { OpenAIDecodingArguments.default with max_tokens := 1440 }]
          finalArgs := { OpenAIDecodingArguments.default with max_tokens := 1440 } }
    ∧ runBatch OpenAIDecodingArguments.default 7
        [.err ("rate limited"), .ok [.str ("y")]]
      = .succeeded
        { choices := [.str ("y")]
          sleepDurations := [7]
          attemptArgs := [OpenAIDecodingArguments.default, OpenAIDecodingArguments.default]
          finalArgs := OpenAIDecodingArguments.default } :=
  ⟨c3_context_length_adaptation.1 OpenAIDecodingArguments.default 7
      ("Please reduce your prompt") [Value.str ("y")] rfl,
   c3_context_length_adaptation.2 OpenAIDecodingArguments.default 7
      ("rate limited") [Value.str ("y")] rfl⟩

/-- Theorem C4: when a batch's transport fails twice with messages outside
the context-length class (not containing "Please reduce your prompt") and
then succeeds, the Retry Controller sleeps exactly twice, once after each
failure and each time for the configured duration, returns the third
attempt's choices, and uses an identical working copy of the decoding
arguments at all three attempts. -/
theorem c4_rate_limit_two_failures
    (args : OpenAIDecodingArguments) (st : Nat) (m1 m2 : String) (cs : List Value)
    (h1 : strContainsSub m1 ("Please reduce your prompt") = false)
    (h2 : strContainsSub m2 ("Please reduce your prompt") = false) :
    runBatch args st [.err m1, .err m2, .ok cs]
      = .succeeded
        { choices := cs
          sleepDurations := [st, st]
          attemptArgs := [args, args, args]
          finalArgs := args } := by
  simp [runBatch, h1, h2]

/-- Witness for C4 at two concrete rate-limit-class failures followed by a
success. -/
theorem c4_witness :
    runBatch OpenAIDecodingArguments.default 3
        [.err ("OpenAIError: 429 Too Many Requests"),
         .err ("OpenAIError: 429 Too Many Requests"),
         .ok [.str ("x")]]
      = .succeeded
        { choices := [.str ("x")]
          sleepDurations := [3, 3]
          attemptArgs := [OpenAIDecodingArguments.default, OpenAIDecodingArguments.default,
            OpenAIDecodingArguments.default]
          finalArgs := OpenAIDecodingArguments.default } :=
  c4_rate_limit_two_failures OpenAIDecodingArguments.default 3
    ("OpenAIError: 429 Too Many Requests") ("OpenAIError: 429 Too Many Requests")
    [Value.str ("x")] rfl rfl

/-- Theorem C5 counterexample: the claim asserts that on a non-success
status the transport's failure carries both the status and any
service-provided message from the response body. At the concrete response
with status 429 whose body carries the service message "You exceeded your
current quota", the code returns `Err(format!("OpenAIError: {}", status))`
(utils.rs line 156) without ever reading the body: the resulting failure
string is exactly "OpenAIError: 429 Too Many Requests" and does not contain
the body's message. -/
theorem c5_cex_error_omits_body_message :
    (send_request (.completed
        { status := 429
          body := .ok (.obj [("error",
            .obj [("message", .str ("You exceeded your current quota"))])]) })).result
      = .err ("OpenAIError: 429 Too Many Requests")
    ∧ strContainsSub ("OpenAIError: 429 Too Many Requests")
        ("You exceeded your current quota") = false :=
  ⟨rfl, rfl⟩

/-- Theorem C5 (amended): every `send_request` invocation performs exactly
one network round trip and never sleeps, and on a non-success status it
returns a failure carrying the status (code and canonical reason) only —
the failure string is determined by the status alone, so any
service-provided message in the response body is not included. -/
theorem c5_single_attempt_status_only_failure :
    (∀ net : NetResult, (send_request net).roundTrips = 1 ∧ (send_request net).sleeps = 0)
    ∧ (∀ (s : Nat) (b b' : Except String Value), s ≠ 200 →
        (send_request (.completed { status := s, body := b })).result
          = .err ("OpenAIError: " ++ statusDisplay s)
        ∧ (send_request (.completed { status := s, body := b })).result
          = (send_request (.completed { status := s, body := b' })).result) := by
  constructor
  · intro net
    exact ⟨rfl, rfl⟩
  · intro s b b' h
    constructor
    · simp [send_request, h]
    · simp [send_request, h]

/-- Witness for the amended C5 theorem at status 429 with two different
bodies. -/
theorem c5_witness :
    (send_request (.completed { status := 429, body := .ok Value.null })).result
      = .err ("OpenAIError: " ++ statusDisplay 429)
    ∧ (send_request (.completed { status := 429, body := .ok Value.null })).result
      = (send_request (.completed { status := 429, body := .error ("boom") })).result :=
  c5_single_attempt_status_only_failure.2 429 (.ok Value.null) (.error ("boom")) (by decide)

/-- Theorem C6: with `n = 3` completions per prompt, two prompts,
`return_text = false`, and a transport returning six choices in
prompt-major order, the orchestrator returns exactly two elements, each a
group of exactly three choices, in the original prompt order; and in
general, for every `n > 1`, the reshaping step regroups a flat result
sequence of length `n · p` into `p` consecutive chunks of size `n`, the
chunk at index `i` being exactly the `n` choices at positions
`[i·n, (i+1)·n)`, one chunk per original prompt in order. -/
theorem c6_regroup_chunks :
    (∀ q1 q2 c1 c2 c3 c4 c5 c6 : Value,
        openai_completion (.arr [q1, q2])
            { OpenAIDecodingArguments.default with n := 3 }
            ("text-davinci-003") 1 2 2 false []
            (fun _ => [.completed
              { status := 200
                body := .ok (.obj [("choices", .arr [c1, c2, c3, c4, c5, c6])]) }])
          = .ok [.arr [c1, c2, c3], .arr [c4, c5, c6]])
    ∧ (∀ (n p : Nat) (flat : List Value), 1 < n → flat.length = n * p →
        chunkList n flat = (List.range p).map (fun i => (flat.drop (i * n)).take n)) := by
  constructor
  · intro q1 q2 c1 c2 c3 c4 c5 c6
    simp [openai_completion, is_single_prompt, Value.isString, Value.isObject, Value.as_array,
      prepare_prompt_batches, num_prompt_batches, sliceToVec, collectPanic, runBatches, runBatch,
      send_request, Value.index, lookupField, chunkList, List.range_succ]
  · intro n p flat hn hlen
    unfold chunkList
    rw [hlen]
    have hc : (n * p + n - 1) / n = p := by
      apply Nat.div_eq_of_lt_le
      · rw [Nat.mul_comm p n]
        omega
      · rw [Nat.succ_mul, Nat.mul_comm p n]
        omega
    rw [hc]

/-- Witness for C6: the general regrouping clause evaluated at `n = 3`,
`p = 2` and six concrete choices. -/
theorem c6_witness :
    chunkList 3 [Value.num 0, Value.num 1, Value.num 2, Value.num 3, Value.num 4, Value.num 5]
      = [[Value.num 0, Value.num 1, Value.num 2], [Value.num 3, Value.num 4, Value.num 5]] :=
  c6_regroup_chunks.2 3 2
    [Value.num 0, Value.num 1, Value.num 2, Value.num 3, Value.num 4, Value.num 5]
    (by decide) rfl

/-- Theorem C7: end-to-end run with a single string prompt, batch size 1,
max instances 1, `n = 1`, `return_text = true`, and a transport that
succeeds on the first attempt with one choice whose text field is "12":
the orchestrator returns the one-element sequence `["12"]`. -/
theorem c7_end_to_end_single_string :
    openai_completion (.str ("hello")) OpenAIDecodingArguments.default
        ("text-davinci-003") 1 1 1 true []
        (fun _ => [.completed
          { status := 200
            body := .ok (.obj [("choices", .arr [.obj [("text", .str ("12"))]])]) }])
      = .ok [.str ("12")] := rfl

/-- Theorem C8 counterexample: the claim asserts that every call with
`batch_size = 0` fails with the error `InvalidBatchSize`, surfaced
immediately. No such error exists in the code: at the concrete call with an
empty prompt array and `batch_size = 0`, the float batch-count computation
yields `NaN as usize = 0` batches and the orchestrator returns `Ok([])` —
it neither fails nor panics. -/
theorem c8_cex_batch_size_zero_no_error :
    openai_completion (.arr []) OpenAIDecodingArguments.default ("text-davinci-003") 1 0 5 true []
        (fun _ => [])
      = .ok []
    ∧ ¬ ∃ m : String,
        openai_completion (.arr []) OpenAIDecodingArguments.default ("text-davinci-003") 1 0 5 true []
            (fun _ => [])
          = .panic m := by
  refine ⟨rfl, ?_⟩
  rintro ⟨m, hm⟩
  have h0 : openai_completion (.arr []) OpenAIDecodingArguments.default
      ("text-davinci-003") 1 0 5 true [] (fun _ => []) = .ok [] := rfl
  rw [h0] at hm
  simp at hm

/-- Helper: chunking an empty list yields no chunks. -/
theorem chunkList_nil (n : Nat) : chunkList n [] = [] := by
  unfold chunkList
  have h : ((List.nil : List Value).length + n - 1) / n = 0 := by
    cases n with
    | zero => rfl
    | succ k =>
      simp only [List.length_nil, Nat.zero_add, Nat.succ_sub_one]
      exact Nat.div_eq_of_lt (Nat.lt_succ_self k)
  rw [h]
  rfl

/-- Helper: sequencing a computation that always succeeds with the empty
batch succeeds with one empty batch per index. -/
theorem collectPanic_const_nil (f : Nat → PanicOr (List Value))
    (hf : ∀ i, f i = .ok []) :
    ∀ l : List Nat, collectPanic f l = .ok (l.map (fun _ => ([] : List Value)))
  | [] => rfl
  | i :: is => by
    simp only [collectPanic, hf i, collectPanic_const_nil f hf is, List.map_cons]

/-- Theorem C8 (amended): `batch_size = 0` is never rejected — there is no
`InvalidBatchSize` error in the code. With an empty (truncated) prompt
sequence the float batch count is `NaN as usize = 0` and the orchestrator
returns `Ok([])`; with a non-empty truncated sequence the batch count
saturates to `usize::MAX` and the batcher returns that many empty batches
(each slice is `[batch_id*0 .. (batch_id+1)*0] = []`) instead of failing. -/
theorem c8_batch_size_zero_behavior :
    (∀ (args : OpenAIDecodingArguments) (mn : String) (st mi : Nat) (rt : Bool)
        (kw : List (String × Value)) (oracle : Nat → List NetResult),
        openai_completion (.arr []) args mn st 0 mi rt kw oracle = .ok [])
    ∧ (∀ (ps : List Value) (mi : Nat), (ps.take mi).length ≠ 0 →
        prepare_prompt_batches ps 0 mi = .ok (List.replicate usizeMax [])) := by
  constructor
  · intro args mn st mi rt kw oracle
    simp [openai_completion, is_single_prompt, Value.isString, Value.isObject, Value.as_array,
      prepare_prompt_batches, num_prompt_batches, collectPanic, runBatches, chunkList_nil]
  · intro ps mi h
    have hnb : num_prompt_batches (ps.take mi).length 0 = usizeMax := by
      unfold num_prompt_batches
      rw [if_pos rfl, if_neg h]
    have hf : ∀ i : Nat, sliceToVec (ps.take mi) (i * 0) ((i + 1) * 0) = .ok [] := by
      intro i
      simp [sliceToVec]
    simp only [prepare_prompt_batches]
    rw [hnb, collectPanic_const_nil _ hf, List.map_const', List.length_range]

/-- Witness for the amended C8 theorem: a concrete empty-input call
returning `Ok([])`, and the batcher at one prompt with `batch_size = 0`
producing `usize::MAX` empty batches. -/
theorem c8_witness :
    openai_completion (.arr []) OpenAIDecodingArguments.default ("m") 2 0 9 false []
        (fun _ => [])
      = .ok []
    ∧ prepare_prompt_batches [Value.str ("p")] 0 1 = .ok (List.replicate usizeMax []) :=
  ⟨c8_batch_size_zero_behavior.1 OpenAIDecodingArguments.default ("m") 2 9 false [] (fun _ => []),
   c8_batch_size_zero_behavior.2 [Value.str ("p")] 1 (by decide)⟩

/-- Helper: whenever a batch's retry loop succeeds, the arguments used at
its first attempt are exactly the arguments the loop was seeded with (the
clone is taken before any adaptation). -/
theorem runBatch_head_args (args : OpenAIDecodingArguments) (st : Nat)
    (atts : List ReqResult) (r : BatchRunResult)
    (h : runBatch args st atts = .succeeded r) :
    r.attemptArgs.head? = some args := by
  cases atts with
  | nil => simp [runBatch] at h
  | cons a rest =>
    cases a with
    | ok cs =>
      simp only [runBatch] at h
      injection h with h'
      subst h'
      rfl
    | panic m => simp [runBatch] at h
    | err m =>
      simp only [runBatch] at h
      by_cases hc : strContainsSub m ("Please reduce your prompt") = true
      · rw [if_pos hc] at h
        cases hrb : runBatch { args with max_tokens := shrinkMaxTokens args.max_tokens } st rest with
        | succeeded r' =>
          rw [hrb] at h
          injection h with h'
          subst h'
          rfl
        | panicked m' =>
          rw [hrb] at h
          simp at h
        | outOfAttempts =>
          rw [hrb] at h
          simp at h
      · rw [if_neg hc] at h
        cases hrb : runBatch args st rest with
        | succeeded r' =>
          rw [hrb] at h
          injection h with h'
          subst h'
          rfl
        | panicked m' =>
          rw [hrb] at h
          simp at h
        | outOfAttempts =>
          rw [hrb] at h
          simp at h

/-- Theorem C9: whenever the orchestration's batch loop completes, every
batch's retry run was seeded with the caller's original decoding arguments:
its first attempt used exactly those arguments, so a `max_tokens` reduction
made while processing one batch is never visible to a later batch, and the
caller's configuration is never mutated (each batch works on its own copy
cloned before any adaptation). -/
theorem c9_per_batch_config_seeding (oracle : Nat → List NetResult)
    (args : OpenAIDecodingArguments) (st : Nat) :
    ∀ (batches : List (List Value)) (i : Nat) (cs : List Value) (rs : List BatchRunResult),
      runBatches oracle args st i batches = .ok (cs, rs) →
      ∀ r ∈ rs, r.attemptArgs.head? = some args := by
  intro batches
  induction batches with
  | nil =>
    intro i cs rs h r hr
    simp only [runBatches, ExecOutcome.ok.injEq, Prod.mk.injEq] at h
    rw [← h.2] at hr
    cases hr
  | cons b bs ih =>
    intro i cs rs h r hr
    simp only [runBatches] at h
    cases hrb : runBatch args st ((oracle i).map (fun nr => (send_request nr).result)) with
    | succeeded r0 =>
      rw [hrb] at h
      cases hrec : runBatches oracle args st (i + 1) bs with
      | ok out =>
        obtain ⟨cs', rs'⟩ := out
        rw [hrec] at h
        simp at h
        obtain ⟨h1, h2⟩ := h
        rw [← h2] at hr
        cases hr with
        | head => exact runBatch_head_args args st _ _ hrb
        | tail _ hm => exact ih (i + 1) cs' rs' hrec r hm
      | panic m =>
        rw [hrec] at h
        simp at h
      | diverges =>
        rw [hrec] at h
        simp at h
    | panicked m =>
      rw [hrb] at h
      simp at h
    | outOfAttempts =>
      rw [hrb] at h
      simp at h

/-- Witness for C9: a two-batch run in which batch 0 suffers a
context-length failure (shrinking its working copy's `max_tokens` from 1800
to 1440 before its second attempt succeeds) and batch 1 then succeeds at
once; the theorem yields that batch 1's first attempt still used the
caller's original arguments, untouched by batch 0's adaptation. -/
theorem c9_witness :
    ({ choices := [Value.str ("c0")]
       sleepDurations := []
       attemptArgs := [OpenAIDecodingArguments.default]
       finalArgs := OpenAIDecodingArguments.default } : BatchRunResult).attemptArgs.head?
      = some OpenAIDecodingArguments.default :=
  c9_per_batch_config_seeding
    (fun i =>
      if i = 0 then
        [NetResult.failed ("Please reduce your prompt; shorten it"),
         NetResult.completed
           { status := 200, body := .ok (.obj [("choices", .arr [.str ("c0")])]) }]
      else
        [NetResult.completed
          { status := 200, body := .ok (.obj [("choices", .arr [.str ("c0")])]) }])
    OpenAIDecodingArguments.default 9
    [[Value.str ("p0")], [Value.str ("p1")]] 0
    [Value.str ("c0"), Value.str ("c0")]
    [{ choices := [Value.str ("c0")]
       sleepDurations := []
       attemptArgs := [OpenAIDecodingArguments.default,
         { OpenAIDecodingArguments.default with max_tokens := 1440 }]
       finalArgs := { OpenAIDecodingArguments.default with max_tokens := 1440 } },
     { choices := [Value.str ("c0")]
       sleepDurations := []
       attemptArgs := [OpenAIDecodingArguments.default]
       finalArgs := OpenAIDecodingArguments.default }]
    (by rfl)
    { choices := [Value.str ("c0")]
      sleepDurations := []
      attemptArgs := [OpenAIDecodingArguments.default]
      finalArgs := OpenAIDecodingArguments.default }
    (List.Mem.tail _ (List.Mem.head _))

/-- Theorem C10: on a successful (HTTP 200) response whose JSON body has no
"choices" field holding an array, `send_request` panics via the `unwrap`
on `as_array` (utils.rs line 159) instead of returning an error value, and
the panic propagates: an orchestration whose batch meets such a response
crashes instead of absorbing the failure or surfacing it as a typed
error. -/
theorem c10_missing_choices_crash (v : Value) (q mn : String)
    (args : OpenAIDecodingArguments) (st : Nat) (rt : Bool)
    (kw : List (String × Value))
    (h : (v.index ("choices")).as_array = none) :
    (send_request (.completed { status := 200, body := .ok v })).result
        = .panic ("called Option::unwrap on a None value")
    ∧ openai_completion (.str q) args mn st 1 1 rt kw
        (fun _ => [.completed { status := 200, body := .ok v }])
      = .panic ("called Option::unwrap on a None value") := by
  constructor
  · simp [send_request, h]
  · simp [openai_completion, is_single_prompt, Value.isString, Value.isObject,
      prepare_prompt_batches, num_prompt_batches, sliceToVec, collectPanic,
      runBatches, runBatch, send_request, h]

/-- Witness for C10 at the concrete 200-status response whose body is the
empty JSON object (no "choices" field at all). -/
theorem c10_witness :
    (send_request (.completed { status := 200, body := .ok (Value.obj []) })).result
        = .panic ("called Option::unwrap on a None value")
    ∧ openai_completion (.str ("hi")) OpenAIDecodingArguments.default ("m") 2 1 1 true []
        (fun _ => [.completed { status := 200, body := .ok (Value.obj []) }])
      = .panic ("called Option::unwrap on a None value") :=
  c10_missing_choices_crash (Value.obj []) ("hi") ("m") OpenAIDecodingArguments.default 2 true []
    rfl
